import Mathlib

/-!
Verification of the Davis weather-console protocol client
(`sievlla_stationlogger`): a shallow embedding of
`communication/davis.py` and `communication/serial_comm.py`, together
with theorems settling the specification's claims about the CRC, the
packed date/time codecs, the archive-record validity predicate, the
DMPAFT download loop, and the unit-conversion layer.

Modelling conventions:
* bytes are `Nat` (each `< 256` where it matters);
* the scripted serial line is a `List Nat` of incoming bytes; a read of
  `n` bytes takes `min n available` bytes, as a timeout-bounded
  `serial.read` does;
* Python code that can raise (struct.unpack on short data,
  `date`/`time`/`datetime` constructors on out-of-range fields,
  attribute access on `None`) is modelled in `Except Unit`;
* Python floats are modelled by `ℚ` for the unit conversions (the
  claims never depend on binary rounding) and by `ℝ` where `math.exp`
  enters (the barometric formula);
* Python `datetime` comparison is lexicographic on
  (year, month, day, hour, minute, second); on the in-range fields
  produced by the validated constructors this order is realised by the
  injective monotone key `PyDateTime.key`.
-/

/-- Read `n` bytes from a scripted byte stream: returns the bytes
obtained (up to `n`, fewer if the stream is exhausted, as a
timeout-bounded serial read does) and the rest of the stream. -/
def readBytes (n : Nat) (s : List Nat) : List Nat × List Nat :=
  (s.take n, s.drop n)

/-- Big-endian 16-bit word from the first two bytes of a list
(struct format `>H`). -/
def be16 (l : List Nat) : Nat :=
  l.getD 0 0 * 256 + l.getD 1 0

/-- Little-endian 16-bit word from two bytes (struct format `<H`). -/
def le16 (lo hi : Nat) : Nat :=
  lo + 256 * hi

/-- Signed 16-bit value from its unsigned 16-bit representation
(struct format `h`). -/
def i16ofU16 (v : Nat) : Int :=
  if 32768 ≤ v then (v : Int) - 65536 else (v : Int)

/-- Gregorian leap-year test, as used by Python's `datetime` module. -/
def isLeapYear (y : Nat) : Bool :=
  (y % 4 = 0 && y % 100 ≠ 0) || y % 400 = 0

/-- Days in a month, as validated by Python's `datetime.date`. -/
def daysInMonth (y m : Nat) : Nat :=
  if m = 2 then (if isLeapYear y then 29 else 28)
  else if m = 4 ∨ m = 6 ∨ m = 9 ∨ m = 11 then 30
  else 31

/-- A Python `datetime.date` value. -/
structure PyDate where
  year : Nat
  month : Nat
  day : Nat
deriving DecidableEq

/-- A Python `datetime.time` value (microseconds are always 0 in this
client and are omitted). -/
structure PyTime where
  hour : Nat
  minute : Nat
  second : Nat
deriving DecidableEq

/-- A Python `datetime.datetime` value (microseconds omitted). -/
structure PyDateTime where
  year : Nat
  month : Nat
  day : Nat
  hour : Nat
  minute : Nat
  second : Nat
deriving DecidableEq

/-- The `datetime.date` constructor: validates its fields
(`MINYEAR = 1`, `MAXYEAR = 9999`, month 1-12, day 1-days_in_month) and
raises `ValueError` otherwise. -/
def mk_date (y m d : Nat) : Except Unit PyDate :=
  if 1 ≤ y ∧ y ≤ 9999 ∧ 1 ≤ m ∧ m ≤ 12 ∧ 1 ≤ d ∧ d ≤ daysInMonth y m
  then .ok ⟨y, m, d⟩ else .error ()

/-- The `datetime.time` constructor (hour 0-23, minute 0-59), with the
`.replace(second=0, microsecond=0)` applied by `_decode_time`. -/
def mk_time (h m : Nat) : Except Unit PyTime :=
  if h ≤ 23 ∧ m ≤ 59 then .ok ⟨h, m, 0⟩ else .error ()

/-- The `datetime.datetime` constructor: validates all six fields. -/
def mk_datetime (y mo d h mi s : Nat) : Except Unit PyDateTime :=
  if 1 ≤ y ∧ y ≤ 9999 ∧ 1 ≤ mo ∧ mo ≤ 12 ∧ 1 ≤ d ∧ d ≤ daysInMonth y mo
      ∧ h ≤ 23 ∧ mi ≤ 59 ∧ s ≤ 59
  then .ok ⟨y, mo, d, h, mi, s⟩ else .error ()

/-- Model of `datetime.combine(date, time)`. -/
def combineDT (d : PyDate) (t : PyTime) : PyDateTime :=
  ⟨d.year, d.month, d.day, t.hour, t.minute, t.second⟩

/-- Injective monotone key realising Python's lexicographic `datetime`
comparison on in-range fields (month < 16, day < 32, hour < 24,
minute < 60, second < 60). -/
def PyDateTime.key (dt : PyDateTime) : Nat :=
  ((((dt.year * 16 + dt.month) * 32 + dt.day) * 24 + dt.hour) * 60
      + dt.minute) * 60 + dt.second

/-- Model of `NULL_DATE_TIME = datetime(1, 1, 1, 0, 0, 0)` (davis.py:8). -/
def NULL_DATE_TIME : PyDateTime := ⟨1, 1, 1, 0, 0, 0⟩

/-- Model of `DavisCommunicator._NULL_DATE = date(1, 1, 1)` (davis.py:76). -/
def nullDate : PyDate := ⟨1, 1, 1⟩

/-- The rain collector variants (`RainCollector`, davis.py:10-13). -/
inductive RainCollector where
  | RAIN_001IN
  | RAIN_01MM
  | RAIN_02MM
deriving DecidableEq

/-- Model of `RainMeasurementsUnit` (davis.py:16-18). -/
inductive RainMeasurementsUnit where
  | MM
  | IN
deriving DecidableEq

/-- Model of `TemperatureMeasurementsUnit` (davis.py:21-23). -/
inductive TemperatureMeasurementsUnit where
  | F
  | C
deriving DecidableEq

/-- Model of `WindSpeedMeasurementsUnit` (davis.py:26-28). -/
inductive WindSpeedMeasurementsUnit where
  | M_S
  | K
deriving DecidableEq

/-- Model of `WindDirMeasurementsUnit` (davis.py:31-33). -/
inductive WindDirMeasurementsUnit where
  | DEG
  | NAMES
deriving DecidableEq

/-- Model of `AirPressureMeasurementsUnit` (davis.py:36-38). -/
inductive AirPressureMeasurementsUnit where
  | IN_HG
  | HPA
deriving DecidableEq

/-- A wind direction as returned by `_convert_wind_dir`: either a
compass-sector name (unit NAMES) or a bearing in degrees (unit DEG). -/
inductive WindDirValue where
  | name (s : String)
  | deg (q : ℚ)
deriving DecidableEq

/-- The construction-time configuration of `DavisCommunicator.__init__`
(davis.py:113-131). -/
structure Config where
  rain_collector : RainCollector
  rain_unit : RainMeasurementsUnit
  temp_unit : TemperatureMeasurementsUnit
  wind_speed_unit : WindSpeedMeasurementsUnit
  air_pressure_unit : AirPressureMeasurementsUnit
  wind_dir_unit : WindDirMeasurementsUnit
  retries_attempt : Nat
  altitude : ℝ

/-- Model of `DavisCommunicator._RETRIES = 3` (davis.py:111), the default of
`retries_attempt`. -/
def davisRetries : Nat := 3

/-- Model of `DavisCommunicator._CRC_TABLE` (davis.py:42-74), transcribed
entry for entry. -/
def crcTable : List Nat := [
  0x0, 0x1021, 0x2042, 0x3063, 0x4084, 0x50a5, 0x60c6, 0x70e7,
  0x8108, 0x9129, 0xa14a, 0xb16b, 0xc18c, 0xd1ad, 0xe1ce, 0xf1ef,
  0x1231, 0x210, 0x3273, 0x2252, 0x52b5, 0x4294, 0x72f7, 0x62d6,
  0x9339, 0x8318, 0xb37b, 0xa35a, 0xd3bd, 0xc39c, 0xf3ff, 0xe3de,
  0x2462, 0x3443, 0x420, 0x1401, 0x64e6, 0x74c7, 0x44a4, 0x5485,
  0xa56a, 0xb54b, 0x8528, 0x9509, 0xe5ee, 0xf5cf, 0xc5ac, 0xd58d,
  0x3653, 0x2672, 0x1611, 0x630, 0x76d7, 0x66f6, 0x5695, 0x46b4,
  0xb75b, 0xa77a, 0x9719, 0x8738, 0xf7df, 0xe7fe, 0xd79d, 0xc7bc,
  0x48c4, 0x58e5, 0x6886, 0x78a7, 0x840, 0x1861, 0x2802, 0x3823,
  0xc9cc, 0xd9ed, 0xe98e, 0xf9af, 0x8948, 0x9969, 0xa90a, 0xb92b,
  0x5af5, 0x4ad4, 0x7ab7, 0x6a96, 0x1a71, 0xa50, 0x3a33, 0x2a12,
  0xdbfd, 0xcbdc, 0xfbbf, 0xeb9e, 0x9b79, 0x8b58, 0xbb3b, 0xab1a,
  0x6ca6, 0x7c87, 0x4ce4, 0x5cc5, 0x2c22, 0x3c03, 0xc60, 0x1c41,
  0xedae, 0xfd8f, 0xcdec, 0xddcd, 0xad2a, 0xbd0b, 0x8d68, 0x9d49,
  0x7e97, 0x6eb6, 0x5ed5, 0x4ef4, 0x3e13, 0x2e32, 0x1e51, 0xe70,
  0xff9f, 0xefbe, 0xdfdd, 0xcffc, 0xbf1b, 0xaf3a, 0x9f59, 0x8f78,
  0x9188, 0x81a9, 0xb1ca, 0xa1eb, 0xd10c, 0xc12d, 0xf14e, 0xe16f,
  0x1080, 0xa1, 0x30c2, 0x20e3, 0x5004, 0x4025, 0x7046, 0x6067,
  0x83b9, 0x9398, 0xa3fb, 0xb3da, 0xc33d, 0xd31c, 0xe37f, 0xf35e,
  0x2b1, 0x1290, 0x22f3, 0x32d2, 0x4235, 0x5214, 0x6277, 0x7256,
  0xb5ea, 0xa5cb, 0x95a8, 0x8589, 0xf56e, 0xe54f, 0xd52c, 0xc50d,
  0x34e2, 0x24c3, 0x14a0, 0x481, 0x7466, 0x6447, 0x5424, 0x4405,
  0xa7db, 0xb7fa, 0x8799, 0x97b8, 0xe75f, 0xf77e, 0xc71d, 0xd73c,
  0x26d3, 0x36f2, 0x691, 0x16b0, 0x6657, 0x7676, 0x4615, 0x5634,
  0xd94c, 0xc96d, 0xf90e, 0xe92f, 0x99c8, 0x89e9, 0xb98a, 0xa9ab,
  0x5844, 0x4865, 0x7806, 0x6827, 0x18c0, 0x8e1, 0x3882, 0x28a3,
  0xcb7d, 0xdb5c, 0xeb3f, 0xfb1e, 0x8bf9, 0x9bd8, 0xabbb, 0xbb9a,
  0x4a75, 0x5a54, 0x6a37, 0x7a16, 0xaf1, 0x1ad0, 0x2ab3, 0x3a92,
  0xfd2e, 0xed0f, 0xdd6c, 0xcd4d, 0xbdaa, 0xad8b, 0x9de8, 0x8dc9,
  0x7c26, 0x6c07, 0x5c64, 0x4c45, 0x3ca2, 0x2c83, 0x1ce0, 0xcc1,
  0xef1f, 0xff3e, 0xcf5d, 0xdf7c, 0xaf9b, 0xbfba, 0x8fd9, 0x9ff8,
  0x6e17, 0x7e36, 0x4e55, 0x5e74, 0x2e93, 0x3eb2, 0xed1, 0x1ef0]

/-- One step of `_calculate_crc` (davis.py:325):
`accu = TABLE[(accu >> 8) ^ b] ^ ((accu & 0x00ff) << 8)`. -/
def crcStep (accu b : Nat) : Nat :=
  crcTable.getD ((accu >>> 8) ^^^ b) 0 ^^^ ((accu &&& 0x00ff) <<< 8)

/-- Model of `DavisCommunicator._calculate_crc` (davis.py:321-326): table-driven
16-bit CRC with initial value 0. -/
def calculate_crc (block : List Nat) : Nat :=
  block.foldl crcStep 0

/-- Model of `DavisCommunicator._encode_time` (davis.py:279-281):
`tm.hour * 100 + tm.minute`. -/
def encode_time (tm : PyTime) : Nat :=
  tm.hour * 100 + tm.minute

/-- The range-check condition of `_decode_time` (davis.py:286),
`(h < 0 & h > 23) | (m < 0 & m > 59)`, with Python's precedence:
`&` binds tighter than comparisons, so each disjunct is the chained
comparison `h < (0 & h) > 23`, i.e. `h < (0 &&& h) ∧ (0 &&& h) > 23`. -/
def decodeTimeGuard (h m : Nat) : Bool :=
  (decide (h < (0 &&& h)) && decide ((0 &&& h) > 23))
    || (decide (m < (0 &&& m)) && decide ((0 &&& m) > 59))

/-- Model of `DavisCommunicator._decode_time` (davis.py:283-289). Returns
`.ok none` when the (ineffective) range check fires, the constructed
time on success, and `.error` when `time(h, m)` raises. -/
def decode_time (i : Nat) : Except Unit (Option PyTime) :=
  let h := i / 100
  let m := i - h * 100
  if decodeTimeGuard h m then .ok none
  else (mk_time h m).map some

/-- Model of `DavisCommunicator._encode_date` (davis.py:291-293):
`0 if dt == _NULL_DATE else dt.day + dt.month * 32 + (dt.year - 2000) * 512`. -/
def encode_date (dt : PyDate) : Int :=
  if dt = nullDate then 0
  else (dt.day : Int) + (dt.month : Int) * 32 + ((dt.year : Int) - 2000) * 512

/-- The range-check condition of `_decode_date` (davis.py:299),
`(y < 0 & y > 99) | (m < 1 & m > 12) | (d < 1 & d > 31)`, with
Python's precedence (each disjunct is a chained comparison through the
bitwise `&`, e.g. `m < (1 & m) ∧ (1 & m) > 12`). -/
def decodeDateGuard (y m d : Nat) : Bool :=
  (decide (y < (0 &&& y)) && decide ((0 &&& y) > 99))
    || (decide (m < (1 &&& m)) && decide ((1 &&& m) > 12))
    || (decide (d < (1 &&& d)) && decide ((1 &&& d) > 31))

/-- Model of `DavisCommunicator._decode_date` (davis.py:295-302). Returns
`.ok none` when the (ineffective) range check fires, the constructed
date on success, and `.error` when `date(y + 2000, m, d)` raises. -/
def decode_date (i : Nat) : Except Unit (Option PyDate) :=
  let y := (i &&& 0xfe00) >>> 9
  let m := (i &&& 0x1e0) >>> 5
  let d := i &&& 0x1f
  if decodeDateGuard y m d then .ok none
  else (mk_date (y + 2000) m d).map some

/-- Model of `DavisCommunicator._is_valid_record` (davis.py:234-245):
unpacks the first two little-endian 16-bit words of a slot (raising on
fewer than 4 bytes), reports invalid when either is `0xFFFF` or when a
decoder returns `None`, and propagates decoder exceptions. -/
def is_valid_record (s : List Nat) : Except Unit Bool :=
  if s.length < 4 then .error ()
  else
    let w0 := le16 (s.getD 0 0) (s.getD 1 0)
    let w1 := le16 (s.getD 2 0) (s.getD 3 0)
    if w0 = 65535 ∨ w1 = 65535 then .ok false
    else do
      let dt ← decode_date w0
      match dt with
      | none => return false
      | some _ =>
        let tm ← decode_time w1
        match tm with
        | none => return false
        | some _ => return true

/-- Model of `DavisCommunicator._WIND_DIRECTIONS` (davis.py:77-78). -/
def WIND_DIRECTIONS : List String :=
  ["N", "NNE", "NE", "ENE", "E", "ESE", "SE", "SSE", "S", "SSW", "SW",
   "WSW", "W", "WNW", "NW", "NNW"]

/-- Model of `DavisCommunicator._WIND_DIRECTIONS_DEG_MAP` (davis.py:79-94). -/
def WIND_DIRECTIONS_DEG_MAP : List (String × ℚ) :=
  [("N", 0.0), ("NNE", 22.5), ("NE", 45.0), ("ENE", 67.5), ("E", 90.0),
   ("ESE", 112.5), ("SE", 135), ("SSE", 157.5), ("S", 180.0),
   ("SSW", 202.5), ("SW", 225.0), ("WSW", 247.5), ("W", 270.0),
   ("WNW", 292.5), ("NW", 315.0), ("NNW", 337.5)]

/-- Model of `DavisCommunicator._convert_wind_dir` (davis.py:328-334). -/
def convert_wind_dir (cfg : Config) (wv : Nat) : Option WindDirValue :=
  if 0 ≤ wv ∧ wv ≤ 15 then
    let wind_dir_name := WIND_DIRECTIONS.getD wv ""
    some (if cfg.wind_dir_unit = WindDirMeasurementsUnit.NAMES
      then .name wind_dir_name
      else .deg (((WIND_DIRECTIONS_DEG_MAP.lookup wind_dir_name).getD 0)))
  else none

/-- Model of `DavisCommunicator._convert_rain` (davis.py:336-358): a
collector-and-unit dependent click size; the raw click count is
multiplied by it. The trailing `else` branches of the source set
`transform = None` and return `None`; they are unreachable for the
enumerated collector and unit values. -/
def convert_rain (unit : RainMeasurementsUnit) (coll : RainCollector)
    (v : ℚ) : Option ℚ :=
  if unit = RainMeasurementsUnit.MM then
    let transform : Option ℚ :=
      if coll = RainCollector.RAIN_001IN then some (0.01 * 25.45)
      else if coll = RainCollector.RAIN_01MM then some 0.1
      else if coll = RainCollector.RAIN_02MM then some 0.2
      else none
    transform.map (fun t => v * t)
  else if unit = RainMeasurementsUnit.IN then
    let transform : Option ℚ :=
      if coll = RainCollector.RAIN_001IN then some 0.01
      else if coll = RainCollector.RAIN_01MM then some (0.1 / 25.45)
      else if coll = RainCollector.RAIN_02MM then some (0.2 / 25.45)
      else none
    transform.map (fun t => v * t)
  else none

/-- Model of `DavisCommunicator._convert_wind_speed` (davis.py:360-361). -/
def convert_wind_speed (cfg : Config) (v : ℚ) : ℚ :=
  if cfg.wind_speed_unit = WindSpeedMeasurementsUnit.K then v
  else v * 0.44704

/-- Model of `DavisCommunicator._convert_air_pressure` (davis.py:363-366). -/
def convert_air_pressure (cfg : Config) (v : ℚ) : ℚ :=
  let air_press_in_hg := v / 1000
  if cfg.air_pressure_unit = AirPressureMeasurementsUnit.IN_HG
  then air_press_in_hg
  else air_press_in_hg * 33.86389

/-- Model of `DavisCommunicator._convert_temp` (davis.py:368-371). -/
def convert_temp (cfg : Config) (v : ℚ) : ℚ :=
  let temp_in_fahrenheit := v / 10
  if cfg.temp_unit = TemperatureMeasurementsUnit.F
  then temp_in_fahrenheit
  else 5 / 9 * (temp_in_fahrenheit - 32)

/-- Gravitational acceleration `_G0 = 9.80665` (davis.py:375). -/
noncomputable def G0 : ℝ := 9.80665

/-- Universal gas constant `_RS = 8.31432` (davis.py:377). -/
noncomputable def RS : ℝ := 8.31432

/-- Molar mass of air `_M_AIR = 0.0289644` (davis.py:379). -/
noncomputable def M_AIR : ℝ := 0.0289644

/-- Model of `DavisCommunicator._barometric_formula` (davis.py:381-393), on the
reals: `temp += 273.75` and then
`pressure * exp((-G0 * M_AIR * hdiff) / (RS * temp))`. The `isnan`
guard of the source has no counterpart on `ℝ`; all inputs reaching the
formula in this client are derived from integers and are never NaN. -/
noncomputable def barometric_formula (temp barometric_pressure hdiff : ℝ) : ℝ :=
  let t := temp + 273.75
  barometric_pressure * Real.exp ((-G0 * M_AIR * hdiff) / (RS * t))

/-- The decoded archive sample (`MeteoRecord`, davis.py:395-417).
Measurement fields are optional; sentinel raw values decode to
`none`. -/
structure MeteoRecord where
  record_date : Option PyDate
  record_time : Option PyTime
  out_temp : Option ℚ
  low_out_temp : Option ℚ
  hi_out_temp : Option ℚ
  outside_humidity : Option Nat
  barometer : Option ℚ
  barometer_sea : Option ℝ
  avg_wind_speed : Option ℚ
  direction_prev_wind : Option WindDirValue
  high_wind_speed : Option ℚ
  direction_hi_wind : Option WindDirValue
  rainfall : Option ℚ
  high_rain_rate : Option ℚ
  solar_radiation : Option Nat
  no_wind_samples : Option Nat
  inside_temp : Option ℚ
  inside_humidity : Option Nat

/-- A `MeteoRecord` with every field absent, used only as the default
of a total projection out of `Except`. -/
def emptyRecord : MeteoRecord :=
  ⟨none, none, none, none, none, none, none, none, none, none, none,
   none, none, none, none, none, none, none⟩

/-- Model of `MeteoRecord.datetime()` (davis.py:416-417):
`datetime.combine(record_date, record_time)` raises when either part
is `None`; otherwise the combined date-time, here as its order key. -/
def recordKeyE (r : MeteoRecord) : Except Unit Nat :=
  match r.record_date, r.record_time with
  | some d, some t => .ok (combineDT d t).key
  | _, _ => .error ()

/-- Total sort key for `records.sort(key=lambda x: x.datetime())`
(davis.py:231); on every record that reaches the sort the fallible
`datetime()` has already succeeded, so the `0` branches are never
taken there. -/
def sortKey (r : MeteoRecord) : Nat :=
  match r.record_date, r.record_time with
  | some d, some t => (combineDT d t).key
  | _, _ => 0

/-- The comparison used to model the ascending Python sort. -/
def recordLE (a b : MeteoRecord) : Prop :=
  sortKey a ≤ sortKey b

instance : DecidableRel recordLE :=
  fun a b => Nat.decLe (sortKey a) (sortKey b)

instance : IsTotal MeteoRecord recordLE :=
  ⟨fun a b => Nat.le_total (sortKey a) (sortKey b)⟩

instance : IsTrans MeteoRecord recordLE :=
  ⟨fun _ _ _ => Nat.le_trans⟩

/-- Model of `DavisCommunicator._create_archive_data_from_bytes`
(davis.py:247-273): unpack a 52-byte slot with struct format
`2H3h5Hh8BH20B` (raising on a wrong length), decode date and time
(`dt.year` on a `None` date would raise), and populate the record with
sentinel-aware conversions. -/
noncomputable def create_archive_data_from_bytes (cfg : Config)
    (s : List Nat) : Except Unit MeteoRecord :=
  if s.length ≠ 52 then .error ()
  else
    let u16 := fun i => le16 (s.getD i 0) (s.getD (i + 1) 0)
    let vl0 := u16 0
    let vl1 := u16 2
    let vl2 := i16ofU16 (u16 4)
    let vl3 := i16ofU16 (u16 6)
    let vl4 := i16ofU16 (u16 8)
    let vl5 := u16 10
    let vl6 := u16 12
    let vl7 := u16 14
    let vl8 := u16 16
    let vl9 := u16 18
    let vl10 := i16ofU16 (u16 20)
    let vl11 := s.getD 22 0
    let vl12 := s.getD 23 0
    let vl13 := s.getD 24 0
    let vl14 := s.getD 25 0
    let vl15 := s.getD 26 0
    let vl16 := s.getD 27 0
    match decode_date vl0 with
    | .error e => .error e
    | .ok none => .error ()   -- "dt.year" on a None date raises
    | .ok (some dt) =>
      let record_date :=
        if dt.year = 0 ∧ dt.month = 0 ∧ dt.day = 0 then none else some dt
      match decode_time vl1 with
      | .error e => .error e
      | .ok record_time =>
        let barometerV : Option ℚ :=
          if vl7 = 0 then none else some (convert_air_pressure cfg (vl7 : ℚ))
        let insideTempV : Option ℚ :=
          if vl10 = 32767 then none else some (convert_temp cfg (vl10 : ℚ))
        .ok
          { record_date := record_date
            record_time := record_time
            out_temp :=
              if vl2 = 32767 then none else some (convert_temp cfg (vl2 : ℚ))
            hi_out_temp :=
              if vl3 = -32768 then none else some (convert_temp cfg (vl3 : ℚ))
            low_out_temp :=
              if vl4 = 32767 then none else some (convert_temp cfg (vl4 : ℚ))
            rainfall := convert_rain cfg.rain_unit cfg.rain_collector (vl5 : ℚ)
            high_rain_rate :=
              convert_rain cfg.rain_unit cfg.rain_collector (vl6 : ℚ)
            barometer := barometerV
            solar_radiation := if vl8 = 32767 then none else some vl8
            no_wind_samples := if vl9 = 0 then none else some vl9
            inside_temp := insideTempV
            inside_humidity := if vl11 = 255 then none else some vl11
            outside_humidity := if vl12 = 255 then none else some vl12
            avg_wind_speed :=
              if vl13 = 255 then none
              else some (convert_wind_speed cfg (vl13 : ℚ))
            high_wind_speed :=
              if vl14 = 0 then none
              else some (convert_wind_speed cfg (vl14 : ℚ))
            direction_hi_wind :=
              if vl15 = 255 then none else convert_wind_dir cfg vl15
            direction_prev_wind :=
              if vl16 = 255 then none else convert_wind_dir cfg vl16
            barometer_sea :=
              match barometerV, insideTempV with
              | some p, some t =>
                some (barometric_formula (t : ℝ) (p : ℝ) (0 - cfg.altitude))
              | _, _ => none }

/-- Model of `DavisCommunicator.wake_up` (davis.py:133-139): per attempt, write
a single `LF` byte and read two bytes; return `True` as soon as the
two bytes read are exactly `LF CR`; after `retries_attempt` failed
attempts return `False`. -/
def wake_up : Nat → List Nat → Bool
  | 0, _ => false
  | n + 1, s =>
    if (readBytes 2 s).1 = [0x0a, 0x0d] then true
    else wake_up n (readBytes 2 s).2

/-- Model of `DavisCommunicator.get_time` (davis.py:155-174): after `GETTIME`,
read (and ignore the value of) one ACK byte, read 6 payload bytes and
a 2-byte big-endian CRC, return `None` on CRC mismatch, and otherwise
build `datetime(1900 + b6, b5, b4, b3, b2, b1)` from the payload bytes
`b1..b6` read in order second, minute, hour, day, month,
year-since-1900. -/
def get_time (s : List Nat) : Except Unit (Option PyDateTime) :=
  let r1 := readBytes 1 s
  if r1.1.length ≠ 1 then .error ()   -- wait_for_ack: unpack("1b") on a short read raises
  else
    let r2 := readBytes 6 r1.2
    let rcv := r2.1
    let r3 := readBytes 2 r2.2
    let crcv := r3.1
    if crcv.length < 2 then .error ()   -- unpack_from(">H") raises
    else
      let crc_rcv := be16 crcv
      let crc_calc := calculate_crc rcv
      if crc_rcv ≠ crc_calc then .ok none
      else if rcv.length < 6 then .error ()   -- unpack_from("6B") raises
      else
        (mk_datetime (1900 + rcv.getD 5 0) (rcv.getD 4 0) (rcv.getD 3 0)
          (rcv.getD 2 0) (rcv.getD 1 0) (rcv.getD 0 0)).map some

/-- Model of `DavisCommunicator.set_time` (davis.py:176-185): after `SETTIME`,
read (and ignore) one ACK byte, pack the six date-time fields with
struct format `6B` (raising when `dt.year - 1900` falls outside a
byte), write the payload and its CRC, and read (and ignore) a final
ACK byte. -/
def set_time (dt : PyDateTime) (s : List Nat) : Except Unit Unit :=
  let r1 := readBytes 1 s
  if r1.1.length ≠ 1 then .error ()
  else if dt.year < 1900 ∨ 1900 + 255 < dt.year then .error ()
  else
    let r2 := readBytes 1 r1.2
    if r2.1.length ≠ 1 then .error () else .ok ()

/-- The slot loop of `get_archive_data` (davis.py:222-230): for each
slot index `j` of a page, skip the first `valid_record` slots of page
0, test validity, decode, and keep records newer than `since`. -/
noncomputable def process_slots (cfg : Config) (sinceKey : Nat)
    (valid_record i : Nat) (page : List Nat) :
    List Nat → List MeteoRecord → Except Unit (List MeteoRecord)
  | [], acc => .ok acc
  | j :: js, acc => do
    if i = 0 ∧ j < valid_record then
      process_slots cfg sinceKey valid_record i page js acc
    else
      let slot := (page.drop (1 + 52 * j)).take 52
      let b ← is_valid_record slot
      if b then
        let r ← create_archive_data_from_bytes cfg slot
        let ts ← recordKeyE r
        if sinceKey < ts then
          process_slots cfg sinceKey valid_record i page js (acc ++ [r])
        else
          process_slots cfg sinceKey valid_record i page js acc
      else
        process_slots cfg sinceKey valid_record i page js acc

/-- The page loop of `get_archive_data` (davis.py:208-230): read 267
bytes per page (265-byte body plus big-endian CRC), unpack the CRC
(raising on a short read), and decode the body's five 52-byte slots
when the CRC matches; on a mismatch the page is dropped and the
download continues. -/
noncomputable def process_pages (cfg : Config) (sinceKey : Nat)
    (valid_record : Nat) :
    Nat → Nat → List Nat → List MeteoRecord → Except Unit (List MeteoRecord)
  | _, 0, _, acc => .ok acc
  | i, n + 1, s, acc =>
    let rp := readBytes 267 s
    let page := rp.1.take 265
    let crc_data := rp.1.drop 265
    if crc_data.length < 2 then .error ()   -- unpack_from(">H") raises
    else
      let crc := be16 crc_data
      let calc_crc := calculate_crc page
      if calc_crc = crc then do
        if page.length < 261 then .error ()   -- unpack_from("B52s...") raises
        else
          let acc' ← process_slots cfg sinceKey valid_record i page
            [0, 1, 2, 3, 4] acc
          process_pages cfg sinceKey valid_record (i + 1) n rp.2 acc'
      else
        process_pages cfg sinceKey valid_record (i + 1) n rp.2 acc

/-- Model of `DavisCommunicator.get_archive_data` (davis.py:187-232) before the
final sort: two ACK bytes are read and their values ignored, the
`since` date-time is encoded and packed with `<2H` (raising outside
16 bits), the 4-byte header and its 2-byte CRC are read, the header
CRC is computed into a variable that is never compared (davis.py:203),
and the pages are processed. -/
noncomputable def get_archive_data_raw (cfg : Config) (since : PyDateTime)
    (s : List Nat) : Except Unit (List MeteoRecord) :=
  let r1 := readBytes 1 s
  if r1.1.length ≠ 1 then .error ()   -- first wait_for_ack
  else
    let pd := encode_date ⟨since.year, since.month, since.day⟩
    let pt := encode_time ⟨since.hour, since.minute, since.second⟩
    if pd < 0 ∨ 65535 < pd then .error ()   -- struct.pack("<2H") raises
    else if 65535 < pt then .error ()
    else
      let r2 := readBytes 1 r1.2
      if r2.1.length ≠ 1 then .error ()   -- second wait_for_ack
      else
        let r3 := readBytes 4 r2.2
        let rcv := r3.1
        let r4 := readBytes 2 r3.2
        let crcv := r4.1
        if crcv.length < 2 then .error ()   -- unpack_from(">H") raises
        else
          let _crc_rcv := be16 crcv
          if rcv.length < 4 then .error ()   -- unpack_from("<2H") raises
          else
            let num_pages := le16 (rcv.getD 0 0) (rcv.getD 1 0)
            let valid_record := le16 (rcv.getD 2 0) (rcv.getD 3 0)
            let _calculated_crc := calculate_crc rcv
            process_pages cfg since.key valid_record 0 num_pages r4.2 []

/-- Model of `DavisCommunicator.get_archive_data` (davis.py:187-232): the
accumulated records, sorted ascending by `datetime()`
(`records.sort(key=lambda x: x.datetime())`, davis.py:231). -/
noncomputable def get_archive_data (cfg : Config) (since : PyDateTime)
    (s : List Nat) : Except Unit (List MeteoRecord) :=
  (get_archive_data_raw cfg since s).map
    (fun records => records.insertionSort recordLE)

/-- The records delivered by a download: the returned list on success,
nothing on a raised exception. -/
def recordsOf (e : Except Unit (List MeteoRecord)) : List MeteoRecord :=
  match e with
  | .ok l => l
  | .error _ => []

/-- True exactly when an `Except` computation did not raise. -/
def exceptIsOk {α : Type} (e : Except Unit α) : Bool :=
  match e with
  | .ok _ => true
  | .error _ => false

/-- A configuration with the constructor defaults of
`DavisCommunicator.__init__` (davis.py:113-120): 0.2 mm collector,
mm / °C / m/s / hPa / names units, 3 retries, altitude 0. -/
noncomputable def defaultConfig : Config :=
  { rain_collector := RainCollector.RAIN_02MM
    rain_unit := RainMeasurementsUnit.MM
    temp_unit := TemperatureMeasurementsUnit.C
    wind_speed_unit := WindSpeedMeasurementsUnit.M_S
    air_pressure_unit := AirPressureMeasurementsUnit.HPA
    wind_dir_unit := WindDirMeasurementsUnit.NAMES
    retries_attempt := davisRetries
    altitude := 0 }

/-- A well-formed 52-byte archive slot: packed date 0x30CC
(2024-06-12), packed time 0x05A5 (14:45), all measurement words 0. -/
def slotA : List Nat := [0xcc, 0x30, 0xa5, 0x05] ++ List.replicate 48 0

/-- A 52-byte slot whose packed-date word is the sentinel 0xFFFF. -/
def slotFF : List Nat := [0xff, 0xff] ++ List.replicate 50 0

/-- A 52-byte slot with packed date 0x2DA1: year 22, month 13, day 1 -
a non-sentinel date whose month is out of range. -/
def slotM13 : List Nat := [0xa1, 0x2d, 0x00, 0x00] ++ List.replicate 48 0

/-- A 52-byte slot with a valid packed date (2024-06-12) and packed
time 1299, which decodes to hour 12, minute 99 - a non-sentinel time
whose minute is out of range. -/
def slotBadMinute : List Nat := [0xcc, 0x30, 0x13, 0x05] ++ List.replicate 48 0

/-- Like `slotA` but with a non-zero barometer word (offset 14) and
inside-temperature word 0 (offset 20), so that both `barometer` and
`inside_temp` decode as present. -/
def slotB : List Nat :=
  [0xcc, 0x30, 0xa5, 0x05] ++ List.replicate 10 0 ++ [0x01, 0x00]
    ++ List.replicate 36 0

/-- A 265-byte page body holding `slotA` twice (two decodable records
with the same timestamp) and three sentinel slots. -/
def pageBodyDup : List Nat :=
  [0] ++ slotA ++ slotA ++ slotFF ++ slotFF ++ slotFF ++ List.replicate 4 0

/-- The page `pageBodyDup` framed with its big-endian CRC (267 bytes). -/
def pageDup : List Nat :=
  pageBodyDup ++ [calculate_crc pageBodyDup >>> 8, calculate_crc pageBodyDup % 256]

/-- A 265-byte page body holding `slotA` once and four sentinel
slots. -/
def pageBodyOne : List Nat :=
  [0] ++ slotA ++ slotFF ++ slotFF ++ slotFF ++ slotFF ++ List.replicate 4 0

/-- The page `pageBodyOne` framed with its big-endian CRC (267 bytes). -/
def pageOne : List Nat :=
  pageBodyOne ++ [calculate_crc pageBodyOne >>> 8, calculate_crc pageBodyOne % 256]

/-- The DMPAFT header for one page starting at record 0. -/
def dmpaftHeader : List Nat := [1, 0, 0, 0]

/-- A scripted DMPAFT reply: ACK, ACK, header, the header's correct
CRC, then one page containing two records with equal timestamps. -/
def streamDup : List Nat :=
  [0x06, 0x06] ++ dmpaftHeader
    ++ [calculate_crc dmpaftHeader >>> 8, calculate_crc dmpaftHeader % 256]
    ++ pageDup

/-- A scripted DMPAFT reply whose header CRC bytes `[0x12, 0x34]` do
not match the CRC of the header, followed by one well-formed page. -/
def streamBadHeaderCrc : List Nat :=
  [0x06, 0x06] ++ dmpaftHeader ++ [0x12, 0x34] ++ pageOne

/-- The record decoded from `slotA` under the default configuration
(total extraction; the download never takes the `emptyRecord`
branch). -/
noncomputable def recordA : MeteoRecord :=
  match create_archive_data_from_bytes defaultConfig slotA with
  | .ok r => r
  | .error _ => emptyRecord

/-- The record decoded from `slotB` under the default configuration. -/
noncomputable def recordB : MeteoRecord :=
  match create_archive_data_from_bytes defaultConfig slotB with
  | .ok r => r
  | .error _ => emptyRecord

/-! Helper lemmas. -/

set_option maxRecDepth 10000 in
lemma crcTable_getD_lt (i : Nat) : crcTable.getD i 0 < 65536 := by
  have hall : ∀ x ∈ crcTable, x < 65536 := by decide
  rw [List.getD_eq_getElem?_getD]
  cases h : crcTable[i]? with
  | none => simp [h]
  | some v => simp only [h, Option.getD_some]; exact hall v (List.getElem?_mem h)

lemma crcStep_lt {a : Nat} (b : Nat) : crcStep a b < 65536 := by
  unfold crcStep
  have h1 : crcTable.getD ((a >>> 8) ^^^ b) 0 < 65536 := crcTable_getD_lt _
  have h2 : (a &&& 0x00ff) <<< 8 < 65536 := by
    have hm : a &&& 0x00ff = a % 256 := by
      have := Nat.and_pow_two_sub_one_eq_mod a 8
      norm_num at this
      exact this
    rw [Nat.shiftLeft_eq, hm]
    have h3 : a % 256 < 256 := Nat.mod_lt _ (by norm_num)
    have h4 : (2 : Nat) ^ 8 = 256 := by norm_num
    rw [h4]
    omega
  have h16 : (65536 : Nat) = 2 ^ 16 := by norm_num
  rw [h16] at h1 h2 ⊢
  exact Nat.xor_lt_two_pow h1 h2

lemma foldl_crcStep_lt (B : List Nat) (a : Nat) (ha : a < 65536) :
    B.foldl crcStep a < 65536 := by
  induction B generalizing a with
  | nil => simpa using ha
  | cons b bs ih => exact ih _ (crcStep_lt b)

lemma crcStep_self_hi (a : Nat) : crcStep a (a >>> 8) = (a &&& 0xff) <<< 8 := by
  unfold crcStep
  rw [Nat.xor_self]
  rw [show crcTable.getD 0 0 = 0 from rfl, Nat.zero_xor]

lemma crcStep_lo (a : Nat) : crcStep ((a &&& 0xff) <<< 8) (a &&& 0xff) = 0 := by
  unfold crcStep
  have h1 : ((a &&& 0xff) <<< 8) >>> 8 = a &&& 0xff := by
    rw [Nat.shiftLeft_eq, Nat.shiftRight_eq_div_pow]
    exact Nat.mul_div_cancel _ (by norm_num)
  have h2 : ((a &&& 0xff) <<< 8) &&& 0x00ff = 0 := by
    have := Nat.and_pow_two_sub_one_eq_mod ((a &&& 0xff) <<< 8) 8
    norm_num at this
    rw [this, Nat.shiftLeft_eq]
    norm_num [Nat.mul_mod_left]
  rw [h1, h2, Nat.xor_self]
  rw [show crcTable.getD 0 0 = 0 from rfl]
  rfl

/-! Claim C1: CRC round trip. -/

/-- C1. For every finite byte sequence `B` (entries below 256), the
table-driven 16-bit CRC with initial value 0 and update
`accu = TABLE[(accu >> 8) ^ b] ^ ((accu & 0x00FF) << 8)` satisfies:
the CRC fits 16 bits, and appending the 2-byte big-endian `CRC(B)` to
`B` and computing the CRC over the extended sequence yields 0. -/
theorem crc_roundtrip_zero (B : List Nat) (_h : ∀ b ∈ B, b < 256) :
    calculate_crc B < 65536 ∧
    calculate_crc (B ++ [calculate_crc B >>> 8, calculate_crc B &&& 0xff]) = 0 := by
  refine ⟨foldl_crcStep_lt B 0 (by norm_num), ?_⟩
  show (B ++ [calculate_crc B >>> 8, calculate_crc B &&& 0xff]).foldl crcStep 0 = 0
  rw [List.foldl_append]
  show crcStep (crcStep (calculate_crc B) (calculate_crc B >>> 8))
    (calculate_crc B &&& 0xff) = 0
  rw [crcStep_self_hi, crcStep_lo]

/-- C1, witness: the round trip evaluated on the concrete byte
sequence `06 E0 00 00` of spec scenario S1. -/
theorem crc_roundtrip_zero_witness :
    calculate_crc [0x06, 0xe0, 0x00, 0x00] < 65536 ∧
    calculate_crc ([0x06, 0xe0, 0x00, 0x00] ++
      [calculate_crc [0x06, 0xe0, 0x00, 0x00] >>> 8,
       calculate_crc [0x06, 0xe0, 0x00, 0x00] &&& 0xff]) = 0 :=
  crc_roundtrip_zero [0x06, 0xe0, 0x00, 0x00] (by decide)

/-! Claim C8: wake-up handshake. -/

/-- C8. `wake_up` makes at most `n` attempts (the configured
`retries_attempt`, default `_RETRIES = 3`); each attempt writes a
single LF byte and reads two bytes, and the call succeeds exactly when
some attempt in range reads exactly the two bytes `LF CR`
(`0x0A 0x0D`); when every configured attempt fails it returns the
failure result (the condition the spec surfaces as `NotResponding`). -/
theorem wake_up_spec :
    davisRetries = 3 ∧
    ∀ (n : Nat) (s : List Nat),
      (wake_up n s = true ↔
        ∃ i, i < n ∧ (s.drop (2 * i)).take 2 = [0x0a, 0x0d]) := by
  refine ⟨rfl, ?_⟩
  intro n
  induction n with
  | zero => intro s; simp [wake_up]
  | succ k ih =>
    intro s
    rw [wake_up]
    by_cases h : (readBytes 2 s).1 = [0x0a, 0x0d]
    · rw [if_pos h]
      simp only [true_iff]
      exact ⟨0, Nat.succ_pos k, by simpa [readBytes] using h⟩
    · rw [if_neg h, ih]
      constructor
      · rintro ⟨i, hi, hw⟩
        refine ⟨i + 1, Nat.succ_lt_succ hi, ?_⟩
        rw [readBytes, List.drop_drop] at hw
        rw [show 2 * (i + 1) = 2 + 2 * i from by omega]
        exact hw
      · rintro ⟨i, hi, hw⟩
        cases i with
        | zero =>
          exfalso
          apply h
          simpa [readBytes] using hw
        | succ j =>
          refine ⟨j, Nat.lt_of_succ_lt_succ hi, ?_⟩
          rw [readBytes, List.drop_drop]
          rw [show 2 * (j + 1) = 2 + 2 * j from by omega] at hw
          exact hw

/-! Claim C7: the byte read where an ACK is expected. -/

/-- C7 (amended). `get_time`, `set_time` and `get_archive_data` read
one byte where an ACK is expected but discard the result of
`wait_for_ack`: the operation behaves identically whatever that byte
is (NAK `0x21`, CANCEL `0x18`, or anything else), so a non-ACK byte
does not make the operation fail. -/
theorem ack_byte_ignored (a : Nat) (s : List Nat) (dt : PyDateTime)
    (cfg : Config) (since : PyDateTime) :
    get_time (a :: s) = get_time (0x06 :: s) ∧
    set_time dt (a :: s) = set_time dt (0x06 :: s) ∧
    get_archive_data cfg since (a :: s) = get_archive_data cfg since (0x06 :: s) :=
  ⟨rfl, rfl, rfl⟩

/-- C7, counterexample to the claim as stated: a `GETTIME` exchange in
which the byte at the ACK position is NAK (`0x21`) and the console
then supplies a valid payload with matching CRC; `get_time` does not
fail - it continues the exchange and returns the decoded time. -/
theorem gettime_succeeds_after_nak :
    (0x21 : Nat) ≠ 0x06 ∧
    get_time (0x21 :: 30 :: 45 :: 14 :: 12 :: 6 :: 124 ::
        (calculate_crc [30, 45, 14, 12, 6, 124] >>> 8) ::
        (calculate_crc [30, 45, 14, 12, 6, 124] % 256) :: []) =
      .ok (some ⟨2024, 6, 12, 14, 45, 30⟩) :=
  ⟨by decide, rfl⟩

/-! Claim C5: order of the returned records. -/

/-- C5 (amended). The record list returned by `get_archive_data` is
sorted in non-decreasing (not strictly increasing) timestamp order:
the accumulated records are sorted ascending by `datetime()` and
records with equal timestamps are all kept. -/
theorem archive_records_sorted (cfg : Config) (since : PyDateTime)
    (s : List Nat) :
    List.Sorted recordLE (recordsOf (get_archive_data cfg since s)) := by
  rw [get_archive_data]
  cases h : get_archive_data_raw cfg since s with
  | error e => simp [recordsOf, Except.map]
  | ok l =>
    simpa [recordsOf, Except.map] using List.sorted_insertionSort recordLE l

set_option maxRecDepth 200000 in
/-- C5, counterexample to strictness: a DMPAFT reply whose single page
carries the same well-formed slot twice produces two returned records
with equal timestamps, so the returned sequence is not strictly
increasing. -/
theorem archive_not_strictly_increasing :
    (recordsOf (get_archive_data defaultConfig NULL_DATE_TIME streamDup)).length
      = 2 ∧
    ¬ List.Chain' (fun a b => sortKey a < sortKey b)
        (recordsOf (get_archive_data defaultConfig NULL_DATE_TIME streamDup)) := by
  constructor
  · rfl
  · intro hch
    have h2 := (List.chain'_map sortKey).mpr hch
    rw [show (recordsOf (get_archive_data defaultConfig NULL_DATE_TIME
            streamDup)).map sortKey
        = [(combineDT ⟨2024, 6, 12⟩ ⟨14, 45, 0⟩).key,
           (combineDT ⟨2024, 6, 12⟩ ⟨14, 45, 0⟩).key] from rfl] at h2
    rw [List.chain'_cons] at h2
    exact absurd h2.1 (lt_irrefl _)

/-! Claim C3: the DMPAFT header CRC. -/

set_option maxRecDepth 200000 in
/-- C3. `get_archive_data` computes the CRC over the 4 DMPAFT header
bytes into a variable it never compares with the received CRC: on a
reply whose 2 header-CRC bytes `[0x12, 0x34]` do not match the header
CRC, the operation does not fail - it acknowledges, reads the page
stream, and returns the page's decoded record. -/
theorem dmpaft_ignores_header_crc :
    be16 [0x12, 0x34] ≠ calculate_crc dmpaftHeader ∧
    exceptIsOk (get_archive_data defaultConfig NULL_DATE_TIME
      streamBadHeaderCrc) = true ∧
    (recordsOf (get_archive_data defaultConfig NULL_DATE_TIME
        streamBadHeaderCrc)).map sortKey
      = [(combineDT ⟨2024, 6, 12⟩ ⟨14, 45, 0⟩).key] := by
  refine ⟨by decide, rfl, rfl⟩

/-! Claim C2: the slot-validity predicate. -/

/-- C2. The validity predicate does not reject out-of-range
date/time fields: its explicit range checks always evaluate to false
(Python parses `m < 1 & m > 12` as `m < (1 & m) > 12`), so a
non-sentinel slot with month 13 (packed date `0x2DA1`) or with minute
99 (packed time 1299) makes `_is_valid_record` raise an uncaught
`ValueError` from the `date`/`time` constructor instead of returning
invalid; only the `0xFFFF` sentinel words are reported invalid. -/
theorem valid_record_raises_on_out_of_range :
    is_valid_record slotM13 = .error () ∧
    is_valid_record slotBadMinute = .error () ∧
    is_valid_record slotFF = .ok false ∧
    is_valid_record slotA = .ok true :=
  ⟨rfl, rfl, rfl, rfl⟩

/-! Claim C4: date codec round trip. -/

lemma and_shiftRight_distrib (x y n : Nat) :
    (x &&& y) >>> n = (x >>> n) &&& (y >>> n) := by
  apply Nat.eq_of_testBit_eq
  intro i
  simp [Nat.testBit_shiftRight, Nat.testBit_and]

lemma decodeDateGuard_false (y m d : Nat) : decodeDateGuard y m d = false := by
  unfold decodeDateGuard
  have h1 : decide (y < (0 &&& y)) = false := by
    simp only [Nat.zero_and, decide_eq_false_iff_not]
    exact Nat.not_lt_zero y
  have h2 : decide (m < (1 &&& m)) = false := by
    simp only [decide_eq_false_iff_not, Nat.not_lt]
    exact @Nat.and_le_right 1 m
  have h3 : decide (d < (1 &&& d)) = false := by
    simp only [decide_eq_false_iff_not, Nat.not_lt]
    exact @Nat.and_le_right 1 d
  rw [h1, h2, h3]
  rfl

lemma daysInMonth_le (y m : Nat) : daysInMonth y m ≤ 31 := by
  unfold daysInMonth
  split
  · split <;> omega
  · split <;> omega

/-- C4. For every valid date with year in [2000, 2099] (month 1-12,
day 1-31 and admissible for the month, as a `datetime.date` requires),
decoding the encoded packed date returns exactly that date; encoding
the null date gives 0; and decoding `0xFFFF` is not accepted as a date
(the `date` constructor rejects month 15). -/
theorem date_codec_roundtrip (y m d : Nat)
    (h : 2000 ≤ y ∧ y ≤ 2099 ∧ 1 ≤ m ∧ m ≤ 12 ∧ 1 ≤ d ∧ d ≤ daysInMonth y m) :
    decode_date (encode_date ⟨y, m, d⟩).toNat = .ok (some ⟨y, m, d⟩) ∧
    encode_date nullDate = 0 ∧
    decode_date 0xffff = .error () := by
  obtain ⟨hy1, hy2, hm1, hm2, hd1, hd2⟩ := h
  refine ⟨?_, rfl, rfl⟩
  have hd31 : d ≤ 31 := le_trans hd2 (daysInMonth_le y m)
  have henc : (encode_date ⟨y, m, d⟩).toNat = d + m * 32 + (y - 2000) * 512 := by
    unfold encode_date
    rw [if_neg]
    · dsimp only
      omega
    · intro hcon
      simp only [nullDate, PyDate.mk.injEq] at hcon
      omega
  rw [henc]
  unfold decode_date
  dsimp only
  have e1 : (d + m * 32 + (y - 2000) * 512) &&& 0x1f = d := by
    have := Nat.and_pow_two_sub_one_eq_mod (d + m * 32 + (y - 2000) * 512) 5
    norm_num at this
    rw [this]
    omega
  have e2 : ((d + m * 32 + (y - 2000) * 512) &&& 0x1e0) >>> 5 = m := by
    rw [and_shiftRight_distrib]
    rw [show (0x1e0 : Nat) >>> 5 = 0xf from rfl]
    rw [Nat.shiftRight_eq_div_pow]
    have := Nat.and_pow_two_sub_one_eq_mod
      ((d + m * 32 + (y - 2000) * 512) / 2 ^ 5) 4
    norm_num at this ⊢
    rw [this]
    omega
  have e3 : ((d + m * 32 + (y - 2000) * 512) &&& 0xfe00) >>> 9 = y - 2000 := by
    rw [and_shiftRight_distrib]
    rw [show (0xfe00 : Nat) >>> 9 = 0x7f from rfl]
    rw [Nat.shiftRight_eq_div_pow]
    have := Nat.and_pow_two_sub_one_eq_mod
      ((d + m * 32 + (y - 2000) * 512) / 2 ^ 9) 7
    norm_num at this ⊢
    rw [this]
    omega
  rw [e1, e2, e3, decodeDateGuard_false]
  simp only [Bool.false_eq_true, if_false]
  rw [show y - 2000 + 2000 = y from by omega]
  unfold mk_date
  rw [if_pos]
  · rfl
  · exact ⟨by omega, by omega, hm1, hm2, hd1, hd2⟩

/-- C4, witness: the round trip evaluated at 2024-06-12. -/
theorem date_codec_roundtrip_witness :
    decode_date (encode_date ⟨2024, 6, 12⟩).toNat = .ok (some ⟨2024, 6, 12⟩) ∧
    encode_date nullDate = 0 ∧
    decode_date 0xffff = .error () :=
  date_codec_roundtrip 2024 6 12 (by decide)

/-! Claim C6: GETTIME decoding. -/

/-- C6. When the received big-endian CRC matches the CRC over the 6
GETTIME payload bytes, `get_time` decodes them in order second,
minute, hour, day, month, year-since-1900 and returns the constructed
date-time with year `1900 + b6`; on the S4 payload
`{30, 45, 14, 12, 6, 124}` with matching CRC the result is
2024-06-12 14:45:30; when the CRC does not match, `get_time` returns
no time. -/
theorem gettime_decodes_payload :
    (∀ (a b1 b2 b3 b4 b5 b6 c1 c2 : Nat) (rest : List Nat),
        c1 * 256 + c2 = calculate_crc [b1, b2, b3, b4, b5, b6] →
        get_time (a :: b1 :: b2 :: b3 :: b4 :: b5 :: b6 :: c1 :: c2 :: rest) =
          (mk_datetime (1900 + b6) b5 b4 b3 b2 b1).map some) ∧
    get_time (0x06 :: 30 :: 45 :: 14 :: 12 :: 6 :: 124 ::
        (calculate_crc [30, 45, 14, 12, 6, 124] >>> 8) ::
        (calculate_crc [30, 45, 14, 12, 6, 124] % 256) :: []) =
      .ok (some ⟨2024, 6, 12, 14, 45, 30⟩) ∧
    (∀ (a b1 b2 b3 b4 b5 b6 c1 c2 : Nat) (rest : List Nat),
        c1 * 256 + c2 ≠ calculate_crc [b1, b2, b3, b4, b5, b6] →
        get_time (a :: b1 :: b2 :: b3 :: b4 :: b5 :: b6 :: c1 :: c2 :: rest) =
          .ok none) := by
  refine ⟨?_, rfl, ?_⟩
  · intro a b1 b2 b3 b4 b5 b6 c1 c2 rest hcrc
    change (if be16 [c1, c2] ≠ calculate_crc [b1, b2, b3, b4, b5, b6]
        then Except.ok none
        else (mk_datetime (1900 + b6) b5 b4 b3 b2 b1).map some)
      = (mk_datetime (1900 + b6) b5 b4 b3 b2 b1).map some
    have heq : be16 [c1, c2] = calculate_crc [b1, b2, b3, b4, b5, b6] := by
      show c1 * 256 + c2 = _
      exact hcrc
    rw [if_neg (fun hk => hk heq)]
  · intro a b1 b2 b3 b4 b5 b6 c1 c2 rest hcrc
    change (if be16 [c1, c2] ≠ calculate_crc [b1, b2, b3, b4, b5, b6]
        then Except.ok none
        else (mk_datetime (1900 + b6) b5 b4 b3 b2 b1).map some)
      = Except.ok none
    have hne : be16 [c1, c2] ≠ calculate_crc [b1, b2, b3, b4, b5, b6] := by
      show c1 * 256 + c2 ≠ _
      exact hcrc
    rw [if_pos hne]

/-- C6, witness: the matching-CRC branch applied to the payload
`{1, 2, 3, 4, 5, 6}` with its genuine CRC bytes. -/
theorem gettime_decodes_payload_witness :
    get_time (0x06 :: 1 :: 2 :: 3 :: 4 :: 5 :: 6 ::
        (calculate_crc [1, 2, 3, 4, 5, 6] >>> 8) ::
        (calculate_crc [1, 2, 3, 4, 5, 6] % 256) :: []) =
      (mk_datetime (1900 + 6) 5 4 3 2 1).map some :=
  gettime_decodes_payload.1 0x06 1 2 3 4 5 6
    (calculate_crc [1, 2, 3, 4, 5, 6] >>> 8)
    (calculate_crc [1, 2, 3, 4, 5, 6] % 256) [] (by decide)

/-! Claims C9 and C10: decoded-record invariants. -/

lemma convert_rain_total (u : RainMeasurementsUnit) (c : RainCollector)
    (v : ℚ) : ∃ t, convert_rain u c v = some (v * t) := by
  cases u <;> cases c <;> exact ⟨_, rfl⟩

lemma create_ok_shape (cfg : Config) (s : List Nat) (r : MeteoRecord)
    (h : create_archive_data_from_bytes cfg s = .ok r) :
    r.rainfall = convert_rain cfg.rain_unit cfg.rain_collector
      ((le16 (s.getD 10 0) (s.getD 11 0) : Nat) : ℚ) ∧
    r.high_rain_rate = convert_rain cfg.rain_unit cfg.rain_collector
      ((le16 (s.getD 12 0) (s.getD 13 0) : Nat) : ℚ) ∧
    ((r.barometer.isSome = true ∧ r.inside_temp.isSome = true) →
      ∃ p t, r.barometer = some p ∧ r.inside_temp = some t ∧
        r.barometer_sea =
          some (barometric_formula (t : ℝ) (p : ℝ) (0 - cfg.altitude))) := by
  unfold create_archive_data_from_bytes at h
  split at h
  · exact absurd h (by simp)
  · dsimp only at h
    split at h
    · exact absurd h (by simp)
    · exact absurd h (by simp)
    · split at h
      · exact absurd h (by simp)
      · rw [Except.ok.injEq] at h
        subst h
        refine ⟨rfl, rfl, ?_⟩
        rintro ⟨hb, ht⟩
        dsimp only at hb ht ⊢
        by_cases h1 : le16 (s.getD 14 0) (s.getD (14 + 1) 0) = 0
        · rw [if_pos h1] at hb
          simp at hb
        · by_cases h2 : i16ofU16 (le16 (s.getD 20 0) (s.getD (20 + 1) 0)) = 32767
          · rw [if_pos h2] at ht
            simp at ht
          · rw [if_neg h1, if_neg h2]
            exact ⟨_, _, rfl, rfl, rfl⟩

/-- C9. `_convert_rain` is total on the enumerated units and
collectors - it multiplies the raw click count (including 0) by a
collector-and-unit factor and never returns `None` - so every decoded
record has both `rainfall` and `high_rain_rate` present. -/
theorem rain_fields_always_present :
    (∀ (u : RainMeasurementsUnit) (c : RainCollector) (v : ℚ),
        ∃ t, convert_rain u c v = some (v * t)) ∧
    (∀ (cfg : Config) (s : List Nat) (r : MeteoRecord),
        create_archive_data_from_bytes cfg s = .ok r →
        r.rainfall.isSome = true ∧ r.high_rain_rate.isSome = true) := by
  refine ⟨convert_rain_total, ?_⟩
  intro cfg s r h
  obtain ⟨h1, h2, -⟩ := create_ok_shape cfg s r h
  obtain ⟨t1, e1⟩ := convert_rain_total cfg.rain_unit cfg.rain_collector
    ((le16 (s.getD 10 0) (s.getD 11 0) : Nat) : ℚ)
  obtain ⟨t2, e2⟩ := convert_rain_total cfg.rain_unit cfg.rain_collector
    ((le16 (s.getD 12 0) (s.getD 13 0) : Nat) : ℚ)
  rw [h1, e1, h2, e2]
  exact ⟨rfl, rfl⟩

/-- C9, witness: the record decoded from `slotA` (zero click counts)
has both rain fields present. -/
theorem rain_fields_witness :
    create_archive_data_from_bytes defaultConfig slotA = .ok recordA ∧
    recordA.rainfall.isSome = true ∧ recordA.high_rain_rate.isSome = true := by
  have h : create_archive_data_from_bytes defaultConfig slotA = .ok recordA := rfl
  exact ⟨h, rain_fields_always_present.2 defaultConfig slotA recordA h⟩

/-- C10. With station altitude 0, every decoded record with both
`barometer` and `inside_temp` present has `barometer_sea` equal to
`barometer`: the height difference passed to the barometric formula is
0, the exponent collapses to `exp 0 = 1`, and the pressure is returned
unchanged. -/
theorem barometer_sea_at_zero_altitude (cfg : Config) (s : List Nat)
    (r : MeteoRecord) (halt : cfg.altitude = 0)
    (h : create_archive_data_from_bytes cfg s = .ok r)
    (hb : r.barometer.isSome = true) (ht : r.inside_temp.isSome = true) :
    r.barometer_sea = r.barometer.map (fun q => (q : ℝ)) := by
  obtain ⟨-, -, h3⟩ := create_ok_shape cfg s r h
  obtain ⟨p, t, hp, htm, hsea⟩ := h3 ⟨hb, ht⟩
  rw [hsea, hp, halt]
  unfold barometric_formula
  norm_num [Real.exp_zero]

/-- C10, witness: the record decoded from `slotB` (barometer word 1,
inside-temperature word 0) at altitude 0 has `barometer_sea` equal to
its `barometer`. -/
theorem barometer_sea_witness :
    defaultConfig.altitude = 0 ∧
    create_archive_data_from_bytes defaultConfig slotB = .ok recordB ∧
    recordB.barometer.isSome = true ∧ recordB.inside_temp.isSome = true ∧
    recordB.barometer_sea = recordB.barometer.map (fun q => (q : ℝ)) := by
  have h : create_archive_data_from_bytes defaultConfig slotB = .ok recordB := rfl
  have hb : recordB.barometer.isSome = true := rfl
  have ht : recordB.inside_temp.isSome = true := rfl
  exact ⟨rfl, h, hb, ht,
    barometer_sea_at_zero_altitude defaultConfig slotB recordB rfl h hb ht⟩
